import Mathlib

/-!
Shallow embedding of `util/vm/build.py` (the mininet VM build script) and
proofs about its specified behaviour.

Modelling conventions:
* The filesystem is a function `String → Option FileInfo` recording, for each
  path, the permission bits and byte size of the file there (if any).
* External commands (curl, qemu-img, mount, ...) are modelled by an
  environment record saying whether each invocation succeeds; every
  invocation is also recorded as an event in a trace, in program order.
* A `pexpect` console is modelled by a choice function `Nat → Nat`: the n-th
  `expect` call matches the pattern whose index the function returns (an
  out-of-range value means no pattern arrived before the timeout).
* Python exceptions become `Except Err` results.
-/

set_option autoImplicit false

namespace MininetBuild

/-- Permission bits (as from `stat`, masked with 0o777 where used) and byte
size of a file. -/
structure FileInfo where
  mode : Nat
  size : Nat
deriving DecidableEq, Repr

/-- A filesystem: which file (if any) lives at each path. -/
def FS : Type := String → Option FileInfo

/-- The empty filesystem. -/
def emptyFS : FS := fun _ => none

/-- Embeds `path.exists`. -/
def pathExists (fs : FS) (p : String) : Bool := (fs p).isSome

/-- Embeds `stat(p)[ST_MODE] & 0777`; `none` models the `OSError` raised by `stat`
on a missing path. -/
def statMode (fs : FS) (p : String) : Option Nat :=
  (fs p).map (fun fi => fi.mode &&& 0o777)

/-- Embeds `stat(p)[ST_SIZE]`. -/
def statSize (fs : FS) (p : String) : Option Nat := (fs p).map FileInfo.size

/-- Create or overwrite the file at `p`. -/
def setFile (fs : FS) (p : String) (fi : FileInfo) : FS :=
  fun q => if q == p then some fi else fs q

/-- Embeds `os.remove p`. -/
def removeFile (fs : FS) (p : String) : FS :=
  fun q => if q == p then none else fs q

/-- Embeds `chmod m p` (no effect on a missing path). -/
def chmodF (fs : FS) (p : String) (m : Nat) : FS :=
  match fs p with
  | some fi => setFile fs p ⟨m, fi.size⟩
  | none => fs

/-- The error taxonomy: Python exceptions raised by the script, named after
the spec's error classes where the spec names them. -/
inductive Err where
  | mediaFetchError
  | concurrentBuildConflict
  | noDeviceAvailable
  | sessionTimeout
  | subprocessFailure
  | osError
  | keyError
  | indexError
  | assertionError
  | unknownTest (name : String)
deriving DecidableEq, Repr

/-- A console pattern passed to `expect`: a literal text pattern or the
`pexpect.TIMEOUT` pseudo-pattern. -/
inductive Pat where
  | text (s : String)
  | timeout
deriving DecidableEq, Repr

/-- Events: one per external command invocation or console interaction, in
program order. -/
inductive Ev where
  | fetch (url : String)
  | removeEv (p : String)
  | chmodEv (p : String) (m : Nat)
  | mkdirEv (p : String)
  | createDisk (image size : String)
  | install (iso image : String)
  | modprobe
  | nbdConnect (dev cow : String)
  | nbdDisconnect (dev : String)
  | partx (dev : String)
  | mountEv (part mnt : String)
  | umountEv (mnt : String)
  | copyEv (src dst : String)
  | rmdirEv (p : String)
  | convertEv (cow vmdk : String)
  | waitMatched (pats : List Pat) (idx : Nat)
  | waitTimedOut (pats : List Pat)
  | sent (line : String)
  | outcome (test : Nat) (passed : Bool)
deriving DecidableEq, Repr

/-- Result of a filesystem-side operation: outcome, final filesystem, and the
trace of external commands it ran. -/
structure FRes (α : Type) where
  res : Except Err α
  fs : FS
  trace : List Ev

/-- Embeds `VMImageDir = os.environ['HOME'] + '/vm-images'`, parameterized by the
value of `HOME`. -/
def VMImageDir (home : String) : String := home ++ "/vm-images"

/-- The `isoURLs` table from the script. -/
def isoURLs : List (String × String) :=
  [ ("precise32server",
     "http://mirrors.kernel.org/ubuntu-releases/12.04/ubuntu-12.04.3-server-i386.iso"),
    ("precise64server",
     "http://mirrors.kernel.org/ubuntu-releases/12.04/ubuntu-12.04.3-server-amd64.iso"),
    ("quantal32server",
     "http://mirrors.kernel.org/ubuntu-releases/12.10/ubuntu-12.10-server-i386.iso"),
    ("quantal64server",
     "http://mirrors.kernel.org/ubuntu-releases/12.10/ubuntu-12.10-server-amd64.iso"),
    ("raring32server",
     "http://mirrors.kernel.org/ubuntu-releases/13.04/ubuntu-13.04-server-i386.iso"),
    ("raring64server",
     "http://mirrors.kernel.org/ubuntu-releases/13.04/ubuntu-13.04-server-amd64.iso"),
    ("saucy32server",
     "http://mirrors.kernel.org/ubuntu-releases/13.10/ubuntu-13.10-server-i386.iso"),
    ("saucy64server",
     "http://mirrors.kernel.org/ubuntu-releases/13.10/ubuntu-13.10-server-amd64.iso") ]

/-- Python dict lookup over an association list (first matching key wins). -/
def lookupStr {α : Type} (k : String) : List (String × α) → Option α
  | [] => none
  | (a, b) :: rest => if k == a then some b else lookupStr k rest

/-- Embeds `path.basename`: the part after the last slash. -/
def basename (p : String) : String := ((p.splitOn "/").getLast?).getD p

/-- The root part of `path.splitext`: drop the extension after the last dot. -/
def splitextRoot (s : String) : String :=
  let parts := s.splitOn "."
  if parts.length ≤ 1 then s else String.intercalate "." parts.dropLast

/-- Embeds `OSVersion( flavor )`: full OS version string for a build flavor. -/
def OSVersion (flavor : String) : String :=
  splitextRoot (basename ((lookupStr flavor isoURLs).getD "unknown"))

/-- Embeds `'/dev/nbd%d' % i`. -/
def nbdName (i : Nat) : String := "/dev/nbd" ++ toString i

/-- The scan inside `attachNBD`: first device number in the list whose
`pgrep` liveness probe reports it unused. -/
def firstFree (busy : Nat → Bool) : List Nat → Option Nat
  | [] => none
  | i :: rest => if busy i then firstFree busy rest else some i

/-- Environment for `extractKernel` and `attachNBD`: the `pgrep` probe, the
success of each external command, the `mkdtemp` result, and the results of
the two `glob` calls. -/
structure ExtractEnv where
  busy : Nat → Bool
  modprobeOk : Bool
  connectOk : Bool
  partxOk : Bool
  mnt : String
  mountOk : Bool
  kernsrcs : List String
  initrdsrcs : List String
  cpInitrdOk : Bool
  chmodInitrdOk : Bool
  initrdSize : Nat
  cpKernelOk : Bool
  chmodKernelOk : Bool
  kernelSize : Nat
  umountOk : Bool
  rmdirOk : Bool
  detachOk : Bool

/-- Result of `attachNBD`: the bound device path, plus the invoked commands. -/
structure ARes where
  res : Except Err String
  trace : List Ev

/-- Embeds `attachNBD( cow, flags )`: scan `/dev/nbd0 .. /dev/nbd62` (`range(0,63)`)
skipping devices whose `pgrep -f` probe exits 0, then `modprobe nbd` and
`qemu-nbd -c` the first free device. Exhaustion raises (the spec's
`NoDeviceAvailable`). -/
def attachNBD (env : ExtractEnv) (cow : String) : ARes :=
  match firstFree env.busy (List.range 63) with
  | none => ⟨.error .noDeviceAvailable, []⟩
  | some i =>
    let nbd := nbdName i
    if !env.modprobeOk then ⟨.error .subprocessFailure, [.modprobe]⟩
    else if !env.connectOk then
      ⟨.error .subprocessFailure, [.modprobe, .nbdConnect nbd cow]⟩
    else ⟨.ok nbd, [.modprobe, .nbdConnect nbd cow]⟩

/-- Embeds `detachNBD( nbd )`: `qemu-nbd -d`. -/
def detachNBD (env : ExtractEnv) (nbd : String) : Except Err Unit × List Ev :=
  if env.detachOk then (.ok (), [.nbdDisconnect nbd])
  else (.error .subprocessFailure, [.nbdDisconnect nbd])

/-- The slow path of `extractKernel` (everything after the cache check):
attach the image read-only, `partx`, mount partition 1 on a fresh temp dir,
glob the kernel and initrd out of `/boot`, copy them into the cache and make
them read-only, unmount, remove the temp dir, detach.  Every external
command is an event; a failing command raises at that point, running nothing
further (the source has no try/finally here). -/
def extractSlow (env : ExtractEnv) (fs : FS) (image kernel initrd : String) :
    FRes (String × String) :=
  let a := attachNBD env image
  match a.res with
  | .error e => ⟨.error e, fs, a.trace⟩
  | .ok nbd =>
    let t1 := a.trace ++ [Ev.partx nbd]
    if !env.partxOk then ⟨.error .subprocessFailure, fs, t1⟩ else
    let part := nbd ++ "p1"
    let mnt := env.mnt
    let t2 := t1 ++ [Ev.mountEv part mnt]
    if !env.mountOk then ⟨.error .subprocessFailure, fs, t2⟩ else
    match env.kernsrcs.head? with
    | none => ⟨.error .indexError, fs, t2⟩
    | some kernsrc =>
    match env.initrdsrcs.head? with
    | none => ⟨.error .indexError, fs, t2⟩
    | some initrdsrc =>
    let t3 := t2 ++ [Ev.copyEv initrdsrc initrd]
    if !env.cpInitrdOk then ⟨.error .subprocessFailure, fs, t3⟩ else
    let fs1 := setFile fs initrd ⟨0o644, env.initrdSize⟩
    let t4 := t3 ++ [Ev.chmodEv initrd 0o444]
    if !env.chmodInitrdOk then ⟨.error .subprocessFailure, fs1, t4⟩ else
    let fs2 := chmodF fs1 initrd 0o444
    let t5 := t4 ++ [Ev.copyEv kernsrc kernel]
    if !env.cpKernelOk then ⟨.error .subprocessFailure, fs2, t5⟩ else
    let fs3 := setFile fs2 kernel ⟨0o644, env.kernelSize⟩
    let t6 := t5 ++ [Ev.chmodEv kernel 0o444]
    if !env.chmodKernelOk then ⟨.error .subprocessFailure, fs3, t6⟩ else
    let fs4 := chmodF fs3 kernel 0o444
    let t7 := t6 ++ [Ev.umountEv mnt]
    if !env.umountOk then ⟨.error .subprocessFailure, fs4, t7⟩ else
    let t8 := t7 ++ [Ev.rmdirEv mnt]
    if !env.rmdirOk then ⟨.error .subprocessFailure, fs4, t8⟩ else
    let d := detachNBD env nbd
    match d.1 with
    | .error e => ⟨.error e, fs4, t8 ++ d.2⟩
    | .ok () => ⟨.ok (kernel, initrd), fs4, t8 ++ d.2⟩

/-- Embeds `extractKernel( image, flavor, imageDir )`: return the cached kernel and
initrd paths if the kernel is cached and the image is read-only (mode 0444);
otherwise extract them from the image.  The `and` in the source is
short-circuiting, so `stat(image)` only runs when the kernel path exists. -/
def extractKernel (env : ExtractEnv) (fs : FS) (image flavor imageDir : String) :
    FRes (String × String) :=
  let kernel := imageDir ++ "/" ++ flavor ++ "-vmlinuz"
  let initrd := imageDir ++ "/" ++ flavor ++ "-initrd"
  if pathExists fs kernel then
    match statMode fs image with
    | none => ⟨.error .osError, fs, []⟩
    | some m =>
      if m == 0o444 then ⟨.ok (kernel, initrd), fs, []⟩
      else extractSlow env fs image kernel initrd
  else extractSlow env fs image kernel initrd

/-- Is this event a `qemu-nbd -c` invocation? -/
def isConnect : Ev → Bool
  | .nbdConnect _ _ => true
  | _ => false

/-- Is this event a `qemu-nbd -d` invocation? -/
def isDisconnect : Ev → Bool
  | .nbdDisconnect _ => true
  | _ => false

/-- The trace contains a device attach. -/
def hasConnect (t : List Ev) : Bool := t.any isConnect

/-- The trace contains a device detach. -/
def hasDisconnect (t : List Ev) : Bool := t.any isDisconnect

/-- Is this event a media fetch (curl), blank-disk creation (qemu-img
create of a base image) or unattended install? -/
def isBuildStep : Ev → Bool
  | .fetch _ => true
  | .createDisk _ _ => true
  | .install _ _ => true
  | _ => false

/-- The trace contains no media fetch, no blank-disk creation and no
unattended install. -/
def noBuildSteps (t : List Ev) : Bool := t.all (fun e => !isBuildStep e)

/-- All the external steps of the slow path of `extractKernel` strictly
between attach and detach succeed. -/
def slowStepsOk (env : ExtractEnv) : Bool :=
  env.partxOk && env.mountOk && env.kernsrcs.head?.isSome &&
  env.initrdsrcs.head?.isSome && env.cpInitrdOk && env.chmodInitrdOk &&
  env.cpKernelOk && env.chmodKernelOk && env.umountOk && env.rmdirOk

/-- Environment for `findiso`: success of `curl` and `file`, whether the
`file` output contains `ISO`, and the size of the downloaded file. -/
structure FetchEnv where
  curlOk : Bool
  fileCmdOk : Bool
  isoTypeOk : Bool
  isoSize : Nat

/-- The fetch condition of `findiso`: the iso is missing, or its permission
bits are not 0444 (the write-once completion signal). -/
def isoStale (fs : FS) (iso : String) : Bool :=
  match fs iso with
  | none => true
  | some fi => (fi.mode &&& 0o777) != 0o444

/-- Embeds `findiso( flavor )`: find the install media, fetching it if it is not
there already (or not yet write-protected).  A fetched file that fails the
`'ISO' in file(iso)` type check is removed before raising (the spec's
`MediaFetchError`). -/
def findiso (env : FetchEnv) (fs : FS) (flavor home : String) : FRes String :=
  match lookupStr flavor isoURLs with
  | none => ⟨.error .keyError, fs, []⟩
  | some url =>
    let iso := VMImageDir home ++ "/" ++ basename url
    if isoStale fs iso then
      let fs1 := setFile fs iso ⟨0o644, env.isoSize⟩
      let t1 := [Ev.fetch url]
      if !env.curlOk then ⟨.error .subprocessFailure, fs1, t1⟩
      else if !env.fileCmdOk then ⟨.error .subprocessFailure, fs1, t1⟩
      else if !env.isoTypeOk then
        ⟨.error .mediaFetchError, removeFile fs1 iso, t1 ++ [Ev.removeEv iso]⟩
      else ⟨.ok iso, chmodF fs1 iso 0o444, t1 ++ [Ev.chmodEv iso 0o444]⟩
    else ⟨.ok iso, fs, []⟩

/-- Environment for the image-creation branch of `findBaseImage`. -/
structure BaseEnv where
  fetch : FetchEnv
  extract : ExtractEnv
  mkdirOk : Bool
  createOk : Bool
  installOk : Bool

/-- Embeds `findBaseImage( flavor, size )`: if the base image exists it must be
read-only (mode 0444) or the build aborts (the spec's
`ConcurrentBuildConflict`); if it is absent, fetch media, create a blank
disk, run the unattended install, and write-protect the image; then extract
kernel and initrd from it. -/
def findBaseImage (env : BaseEnv) (fs : FS) (flavor home : String) :
    FRes (String × String × String) :=
  let image := VMImageDir home ++ "/" ++ flavor ++ "-base.qcow2"
  let phase1 : FRes Unit :=
    match fs image with
    | some fi =>
      if (fi.mode &&& 0o777) != 0o444 then ⟨.error .concurrentBuildConflict, fs, []⟩
      else ⟨.ok (), fs, []⟩
    | none =>
      let t0 := [Ev.mkdirEv (VMImageDir home)]
      if !env.mkdirOk then ⟨.error .subprocessFailure, fs, t0⟩ else
      let fr := findiso env.fetch fs flavor home
      match fr.res with
      | .error e => ⟨.error e, fr.fs, t0 ++ fr.trace⟩
      | .ok iso =>
        let t1 := t0 ++ fr.trace ++ [Ev.createDisk image "8G"]
        let fs1 := setFile fr.fs image ⟨0o644, 0⟩
        if !env.createOk then ⟨.error .subprocessFailure, fs1, t1⟩ else
        let t2 := t1 ++ [Ev.install iso image]
        if !env.installOk then ⟨.error .subprocessFailure, fs1, t2⟩ else
        ⟨.ok (), chmodF fs1 image 0o444, t2 ++ [Ev.chmodEv image 0o444]⟩
  match phase1.res with
  | .error e => ⟨.error e, phase1.fs, phase1.trace⟩
  | .ok () =>
    let er := extractKernel env.extract phase1.fs image flavor (VMImageDir home)
    match er.res with
    | .error e => ⟨.error e, er.fs, phase1.trace ++ er.trace⟩
    | .ok (kernel, initrd) =>
      ⟨.ok (image, kernel, initrd), er.fs, phase1.trace ++ er.trace⟩

/-- Embeds `Prompt = '\$ '`, the shell prompt pattern. -/
def Prompt : String := "\\$ "

/-- Result of a console-protocol step: outcome, events (sends, waits,
logged outcomes), and the index of the next `expect` call. -/
structure CRes (α : Type) where
  res : Except Err α
  trace : List Ev
  k : Nat

/-- One `vm.expect( pats )` call, the `k`-th expect of the session.  The
console environment `env` chooses which pattern arrived (an out-of-range
choice means nothing matched before the timeout).  As in pexpect, a timeout
returns the index of the `TIMEOUT` pseudo-pattern when it is listed, and
raises otherwise (`none` here). -/
def expectStep (env : Nat → Nat) (k : Nat) (pats : List Pat) :
    Option Nat × Ev :=
  let c := env k
  if c < pats.length then (some c, .waitMatched pats c)
  else
    match pats.findIdx? (fun p => p == Pat.timeout) with
    | some i => (some i, .waitMatched pats i)
    | none => (none, .waitTimedOut pats)

/-- The single pattern of the login-prompt wait. -/
def loginPats : List Pat := [.text "login: "]

/-- The single pattern of the password-prompt wait. -/
def passwordPats : List Pat := [.text "Password: "]

/-- The single pattern of a shell-prompt wait. -/
def promptPats : List Pat := [.text Prompt]

/-- Embeds `login( vm )`: wait for the login prompt, send the username, wait for
the password prompt, send the password. -/
def login (env : Nat → Nat) (k : Nat) : CRes Unit :=
  match expectStep env k loginPats with
  | (none, e1) => ⟨.error .sessionTimeout, [e1], k + 1⟩
  | (some _, e1) =>
    match expectStep env (k + 1) passwordPats with
    | (none, e2) =>
      ⟨.error .sessionTimeout, [e1, .sent "mininet", e2], k + 2⟩
    | (some _, e2) =>
      ⟨.ok (), [e1, .sent "mininet", e2, .sent "mininet"], k + 2⟩

/-- Checks a console trace for credential discipline: the first `sent` line
(the username) must come after a matched login prompt, every later `sent`
line (the password) after a matched password prompt, and the password
prompt itself can only be matched after the login prompt. -/
def credOrder : List Ev → Bool → Bool → Nat → Bool
  | [], _, _, _ => true
  | e :: rest, seenL, seenP, nsent =>
    match e with
    | .sent _ =>
      (if nsent == 0 then seenL else seenP) && credOrder rest seenL seenP (nsent + 1)
    | .waitMatched pats i =>
      if pats.get? i == some (Pat.text "Password: ") then
        seenL && credOrder rest seenL true nsent
      else if pats.get? i == some (Pat.text "login: ") then
        credOrder rest true seenP nsent
      else credOrder rest seenL seenP nsent
    | _ => credOrder rest seenL seenP nsent

/-- The pattern list of the sanity-test result wait. -/
def sanityPats : List Pat := [.text " 0% dropped", .timeout]

/-- Embeds `sanityTest( vm )`: run `mn --test pingall` and wait for the result
token or a 45s timeout; either outcome is only logged, never raised. -/
def sanityTest (env : Nat → Nat) (k : Nat) : CRes Unit :=
  match expectStep env k sanityPats with
  | (some i, e) =>
    ⟨.ok (), [.sent "sudo mn --test pingall", e, .outcome 0 (i == 0)], k + 1⟩
  | (none, e) =>
    -- unreachable: TIMEOUT is among the patterns
    ⟨.error .sessionTimeout, [.sent "sudo mn --test pingall", e], k + 1⟩

/-- The pattern list of a core-test result wait. -/
def corePats : List Pat := [.text "OK", .text "FAILED", .timeout]

/-- The index `expect` returns for a core result wait when the console
produced choice `c`: the chosen pattern when in range, otherwise the index
of `TIMEOUT`. -/
def coreIdx (c : Nat) : Nat := if c < 3 then c else 2

/-- The result loop of `coreTest` (`for test in range( 0, 2 )`): each
iteration waits for `OK`/`FAILED`/timeout and logs the outcome; a timeout
is logged as a failure, not raised. -/
def coreLoop (env : Nat → Nat) (k test remaining : Nat) : List Ev × Nat :=
  match remaining with
  | 0 => ([], k)
  | r + 1 =>
    match expectStep env k corePats with
    | (some i, e) =>
      let rest := coreLoop env (k + 1) (test + 1) r
      (e :: Ev.outcome test (i == 0) :: rest.1, rest.2)
    | (none, e) =>
      -- unreachable: TIMEOUT is among the patterns
      ([e], k + 1)

/-- Embeds `coreTest( vm, prompt )`: remount cgroups (two commands, each awaiting a
shell prompt), run `make test`, then the two-iteration result loop. -/
def coreTest (env : Nat → Nat) (k : Nat) : CRes Unit :=
  match expectStep env k promptPats with
  | (none, e1) =>
    ⟨.error .sessionTimeout, [.sent "sudo service cgroup-lite restart", e1], k + 1⟩
  | (some _, e1) =>
    match expectStep env (k + 1) promptPats with
    | (none, e2) =>
      ⟨.error .sessionTimeout,
        [.sent "sudo service cgroup-lite restart", e1,
         .sent "sudo cgroups-mount", e2], k + 2⟩
    | (some _, e2) =>
      let l := coreLoop env (k + 2) 0 2
      ⟨.ok (),
        [.sent "sudo service cgroup-lite restart", e1,
         .sent "sudo cgroups-mount", e2,
         .sent "cd ~/mininet; sudo make test"] ++ l.1, l.2⟩

/-- Embeds `examplesquickTest( vm, prompt )`: install pexpect, await a prompt, then
fire off the quick examples run without awaiting its completion. -/
def examplesquickTest (env : Nat → Nat) (k : Nat) : CRes Unit :=
  match expectStep env k promptPats with
  | (none, e) =>
    ⟨.error .sessionTimeout, [.sent "sudo apt-get install python-pexpect", e], k + 1⟩
  | (some _, e) =>
    ⟨.ok (),
      [.sent "sudo apt-get install python-pexpect", e,
       .sent "sudo python ~/mininet/examples/test/runner.py -v -quick"], k + 1⟩

/-- Embeds `examplesfullTest( vm, prompt )`: install pexpect, await a prompt, then
fire off the full examples run without awaiting its completion. -/
def examplesfullTest (env : Nat → Nat) (k : Nat) : CRes Unit :=
  match expectStep env k promptPats with
  | (none, e) =>
    ⟨.error .sessionTimeout, [.sent "sudo apt-get install python-pexpect", e], k + 1⟩
  | (some _, e) =>
    ⟨.ok (),
      [.sent "sudo apt-get install python-pexpect", e,
       .sent "sudo python ~/mininet/examples/test/runner.py -v"], k + 1⟩

/-- Embeds `testDict()`: the registry of test sub-protocols, keyed by the function
name with the `Test` suffix stripped. -/
def testfns : List (String × ((Nat → Nat) → Nat → CRes Unit)) :=
  [ ("core", coreTest),
    ("examplesfull", examplesfullTest),
    ("examplesquick", examplesquickTest),
    ("sanity", sanityTest) ]

/-- The recursion of `runTests`: look each requested test up in the
registry, run it, then (the runner itself) await a shell prompt before the
next test. -/
def runTestsGo (env : Nat → Nat) (k : Nat) : List String → CRes Unit
  | [] => ⟨.ok (), [], k⟩
  | t :: rest =>
    match lookupStr t testfns with
    | none => ⟨.error (.unknownTest t), [], k⟩
    | some fn =>
      let r := fn env k
      match r.res with
      | .error e => ⟨.error e, r.trace, r.k⟩
      | .ok () =>
        match expectStep env r.k promptPats with
        | (none, e) => ⟨.error .sessionTimeout, r.trace ++ [e], r.k + 1⟩
        | (some _, e) =>
          let r2 := runTestsGo env (r.k + 1) rest
          ⟨r2.res, r.trace ++ [e] ++ r2.trace, r2.k⟩

/-- Embeds `runTests( vm, tests, prompt )`: default to `[ 'sanity', 'core' ]` when
no tests are requested, then run them in order. -/
def runTests (env : Nat → Nat) (k : Nat) (tests : List String) : CRes Unit :=
  runTestsGo env k (if tests.isEmpty then ["sanity", "core"] else tests)

/-- Is this event a wait whose pattern list is the shell prompt? -/
def isPromptWait : Ev → Bool
  | .waitMatched pats _ => pats == promptPats
  | .waitTimedOut pats => pats == promptPats
  | _ => false

/-- Environment for the packaging tail of `build`: success of the `file`
probe inside `qcow2size`, whether its output contains `QCOW`, the parsed
virtual size (none models no `(\d+) bytes` match), success of `qemu-img
convert`, and the on-disk byte size of the converted vmdk. -/
structure PackEnv where
  fileQcowOk : Bool
  isQcow : Bool
  virtSizeOut : Option Nat
  convertOk : Bool
  vmdkSize : Nat

/-- Embeds `qcow2size( qcow2 )`: run `file`, assert the output mentions `QCOW`,
and parse the first `<n> bytes` group as the virtual disk size. -/
def qcow2size (env : PackEnv) (_qcow2 : String) : Except Err Nat :=
  if !env.fileQcowOk then .error .subprocessFailure
  else if !env.isQcow then .error .assertionError
  else
    match env.virtSizeOut with
    | none => .error .indexError
    | some n => .ok n

/-- Embeds `convert( cow, basename )`: `qemu-img convert` the qcow2 working disk
into `basename.vmdk`. -/
def convert (env : PackEnv) (fs : FS) (cow base : String) : FRes String :=
  let vmdk := base ++ ".vmdk"
  if env.convertOk then
    ⟨.ok vmdk, setFile fs vmdk ⟨0o644, env.vmdkSize⟩, [.convertEv cow vmdk]⟩
  else ⟨.error .subprocessFailure, fs, [.convertEv cow vmdk]⟩

/-- The fields substituted into `OVFTemplate` by `generateOVF`, in template
order (the memory size is substituted twice with the same value). -/
structure OVFDescriptor where
  href : String
  fileSize : Nat
  capacity : Nat
  infoName : String
  memMB : Nat
deriving DecidableEq, Repr

/-- Embeds `generateOVF( name, diskname, disksize, mem )`: write `name.ovf`, whose
file reference records the artifact's on-disk size (`stat`) and whose disk
section declares `disksize` bytes of capacity. -/
def generateOVF (fs : FS) (name diskname : String) (disksize mem : Nat) :
    Except Err (String × OVFDescriptor) :=
  match statSize fs diskname with
  | none => .error .osError
  | some fsize => .ok (name ++ ".ovf", ⟨diskname, fsize, disksize, name, mem⟩)

/-- The packaging tail of `build` (after the console session closes):
query the working disk's virtual size, convert it to vmdk, delete the
working disk unless `SaveQCOW2`, and generate the OVF descriptor. -/
def buildPackage (env : PackEnv) (fs : FS) (flavor version : String)
    (saveQCOW2 : Bool) : FRes (String × OVFDescriptor) :=
  let base := "mininet-" ++ flavor
  let volume := base ++ ".qcow2"
  match qcow2size env volume with
  | .error e => ⟨.error e, fs, []⟩
  | .ok size =>
    let c := convert env fs volume "mininet-vm"
    match c.res with
    | .error e => ⟨.error e, c.fs, c.trace⟩
    | .ok vmdk =>
      let afterRm : FRes Unit :=
        if saveQCOW2 then ⟨.ok (), c.fs, c.trace⟩
        else
          match c.fs volume with
          | none => ⟨.error .osError, c.fs, c.trace⟩
          | some _ =>
            ⟨.ok (), removeFile c.fs volume, c.trace ++ [Ev.removeEv volume]⟩
      match afterRm.res with
      | .error e => ⟨.error e, afterRm.fs, afterRm.trace⟩
      | .ok () =>
        let ovfname := "mininet-" ++ version ++ "-" ++ OSVersion flavor
        match generateOVF afterRm.fs ovfname vmdk size 1024 with
        | .error e => ⟨.error e, afterRm.fs, afterRm.trace⟩
        | .ok (ovf, d) => ⟨.ok (ovf, d), afterRm.fs, afterRm.trace⟩

/-- Did the operation return normally (no exception)? -/
def isOkE {α : Type} : Except Err α → Bool
  | .ok _ => true
  | .error _ => false

/-- An extraction environment in which every device slot is free and every
external command succeeds. -/
def allOkExtract : ExtractEnv :=
  { busy := fun _ => false
    modprobeOk := true
    connectOk := true
    partxOk := true
    mnt := "/tmp/tmpkkQw1c"
    mountOk := true
    kernsrcs := ["/tmp/tmpkkQw1c/boot/vmlinuz-3.8.0-19-generic"]
    initrdsrcs := ["/tmp/tmpkkQw1c/boot/initrd.img-3.8.0-19-generic"]
    cpInitrdOk := true
    chmodInitrdOk := true
    initrdSize := 14676692
    cpKernelOk := true
    chmodKernelOk := true
    kernelSize := 5255136
    umountOk := true
    rmdirOk := true
    detachOk := true }

/-- An extraction environment whose `mount` invocation fails; everything
before it succeeds. -/
def leakEnv : ExtractEnv :=
  { allOkExtract with mountOk := false }

/-- A fetch environment in which curl and `file` run fine but the
downloaded file fails the `ISO` type check. -/
def fetchBadEnv : FetchEnv :=
  { curlOk := true, fileCmdOk := true, isoTypeOk := false, isoSize := 123456 }

/-- A fully healthy build environment. -/
def baseEnvOk : BaseEnv :=
  { fetch := { curlOk := true, fileCmdOk := true, isoTypeOk := true, isoSize := 733079552 }
    extract := allOkExtract
    mkdirOk := true
    createOk := true
    installOk := true }

/-- A filesystem holding only a writable, still incomplete base image. -/
def fsWritableImage : FS :=
  fun p =>
    if p == "/home/mn/vm-images/raring32server-base.qcow2" then some ⟨0o644, 1024⟩
    else none

/-- A filesystem holding a completed (read-only) base image and its cached
kernel, but no cached initrd. -/
def fsComplete : FS :=
  fun p =>
    if p == "/home/mn/vm-images/raring32server-base.qcow2" then some ⟨0o444, 8589934592⟩
    else if p == "/home/mn/vm-images/raring32server-vmlinuz" then some ⟨0o444, 5255136⟩
    else none

/-- A healthy packaging environment: the vmdk's on-disk size is much
smaller than the virtual capacity reported for the working disk. -/
def packEnvOk : PackEnv :=
  { fileQcowOk := true
    isQcow := true
    virtSizeOut := some 8589934592
    convertOk := true
    vmdkSize := 1073741824 }

/-- A filesystem holding only the qcow2 working disk of a raring32server
build. -/
def fsVolume : FS :=
  fun p =>
    if p == "mininet-raring32server.qcow2" then some ⟨0o644, 2147483648⟩ else none

/-- A console that always produces the first expected pattern. -/
def envZero : Nat → Nat := fun _ => 0

theorem firstFree_append (busy : Nat → Bool) (l₁ l₂ : List Nat) :
    firstFree busy (l₁ ++ l₂) =
      match firstFree busy l₁ with
      | some i => some i
      | none => firstFree busy l₂ := by
  induction l₁ with
  | nil => simp [firstFree]
  | cons a rest ih =>
    by_cases h : busy a = true
    · simpa [firstFree, h] using ih
    · simp [firstFree, h] at *

theorem firstFree_range_none (busy : Nat → Bool) (n : Nat)
    (h : ∀ i, i < n → busy i = true) :
    firstFree busy (List.range n) = none := by
  induction n with
  | zero => simp [firstFree]
  | succ m ih =>
    rw [List.range_succ, firstFree_append]
    rw [ih (fun i hi => h i (Nat.lt_succ_of_lt hi))]
    simp [firstFree, h m (Nat.lt_succ_self m)]

theorem firstFree_range_least (busy : Nat → Bool) (n i : Nat)
    (hi : i < n) (hfree : busy i = false)
    (hbusy : ∀ j, j < i → busy j = true) :
    firstFree busy (List.range n) = some i := by
  induction n with
  | zero => exact absurd hi (Nat.not_lt_zero i)
  | succ m ih =>
    rw [List.range_succ, firstFree_append]
    rcases Nat.lt_or_ge i m with hlt | hge
    · rw [ih hlt]
    · have him : i = m := Nat.le_antisymm (Nat.lt_succ_iff.mp hi) hge
      subst him
      rw [firstFree_range_none busy i hbusy]
      simp [firstFree, hfree]

/-- Claim C4: for every image path, `attachNBD` scans the fixed slot range
0..62 in increasing order, skips every slot whose `pgrep` liveness probe
reports it in use, binds and returns the first free slot; if every slot in
the range is in use, it raises `NoDeviceAvailable`. -/
theorem attachNBD_first_free_slot (env : ExtractEnv) (cow : String) :
    ((∀ i, i < 63 → env.busy i = true) →
      (attachNBD env cow).res = .error .noDeviceAvailable) ∧
    (∀ i, i < 63 → env.busy i = false →
      (∀ j, j < i → env.busy j = true) →
      env.modprobeOk = true → env.connectOk = true →
      (attachNBD env cow).res = .ok (nbdName i) ∧
      (attachNBD env cow).trace = [.modprobe, .nbdConnect (nbdName i) cow]) := by
  constructor
  · intro h
    unfold attachNBD
    rw [firstFree_range_none env.busy 63 h]
  · intro i hi hfree hbusy hm hc
    unfold attachNBD
    rw [firstFree_range_least env.busy 63 i hi hfree hbusy]
    simp [hm, hc]

/-- Witness for C4: in an environment with every slot free, `attachNBD`
binds slot 0. -/
theorem attachNBD_first_free_slot_witness :
    ((0 : Nat) < 63 ∧ allOkExtract.busy 0 = false ∧
      allOkExtract.modprobeOk = true ∧ allOkExtract.connectOk = true) ∧
    (attachNBD allOkExtract "/home/mn/vm-images/raring32server-base.qcow2").res
      = .ok (nbdName 0) := by
  refine ⟨⟨by decide, rfl, rfl, rfl⟩, ?_⟩
  exact ((attachNBD_first_free_slot allOkExtract
      "/home/mn/vm-images/raring32server-base.qcow2").2 0 (by decide) rfl
      (fun j hj => absurd hj (Nat.not_lt_zero j)) rfl rfl).1

theorem extractSlow_spec (env : ExtractEnv) (fs : FS)
    (image kernel initrd : String) :
    (hasConnect (extractSlow env fs image kernel initrd).trace
      = ((firstFree env.busy (List.range 63)).isSome && env.modprobeOk)) ∧
    (hasDisconnect (extractSlow env fs image kernel initrd).trace
      = ((firstFree env.busy (List.range 63)).isSome && env.modprobeOk &&
         env.connectOk && slowStepsOk env)) ∧
    noBuildSteps (extractSlow env fs image kernel initrd).trace = true ∧
    (∀ v, (extractSlow env fs image kernel initrd).res = .ok v →
      v = (kernel, initrd)) ∧
    (isOkE (extractSlow env fs image kernel initrd).res
      = ((firstFree env.busy (List.range 63)).isSome && env.modprobeOk &&
         env.connectOk && slowStepsOk env && env.detachOk)) := by
  rcases hff : firstFree env.busy (List.range 63) with _ | i
  · simp [extractSlow, attachNBD, hff, hasConnect, hasDisconnect, noBuildSteps,
      slowStepsOk, isOkE]
  · cases hm : env.modprobeOk
    · simp [extractSlow, attachNBD, hff, hm, hasConnect, hasDisconnect,
        noBuildSteps, slowStepsOk, isOkE, isConnect, isDisconnect, isBuildStep]
    · cases hc : env.connectOk
      · simp [extractSlow, attachNBD, hff, hm, hc, hasConnect, hasDisconnect,
          noBuildSteps, slowStepsOk, isOkE, isConnect, isDisconnect, isBuildStep]
      · cases hp : env.partxOk
        · simp [extractSlow, attachNBD, hff, hm, hc, hp, hasConnect,
            hasDisconnect, noBuildSteps, slowStepsOk, isOkE, isConnect,
            isDisconnect, isBuildStep]
        · cases hmo : env.mountOk
          · simp [extractSlow, attachNBD, hff, hm, hc, hp, hmo, hasConnect,
              hasDisconnect, noBuildSteps, slowStepsOk, isOkE, isConnect,
              isDisconnect, isBuildStep]
          · rcases hk : env.kernsrcs.head? with _ | ks
            · simp [extractSlow, attachNBD, hff, hm, hc, hp, hmo, hk,
                hasConnect, hasDisconnect, noBuildSteps, slowStepsOk, isOkE,
                isConnect, isDisconnect, isBuildStep]
            · rcases hin : env.initrdsrcs.head? with _ | isrc
              · simp [extractSlow, attachNBD, hff, hm, hc, hp, hmo, hk, hin,
                  hasConnect, hasDisconnect, noBuildSteps, slowStepsOk, isOkE,
                  isConnect, isDisconnect, isBuildStep]
              · cases h1 : env.cpInitrdOk
                · simp [extractSlow, attachNBD, hff, hm, hc, hp, hmo, hk, hin,
                    h1, hasConnect, hasDisconnect, noBuildSteps, slowStepsOk,
                    isOkE, isConnect, isDisconnect, isBuildStep]
                · cases h2 : env.chmodInitrdOk
                  · simp [extractSlow, attachNBD, hff, hm, hc, hp, hmo, hk,
                      hin, h1, h2, hasConnect, hasDisconnect, noBuildSteps,
                      slowStepsOk, isOkE, isConnect, isDisconnect, isBuildStep]
                  · cases h3 : env.cpKernelOk
                    · simp [extractSlow, attachNBD, hff, hm, hc, hp, hmo, hk,
                        hin, h1, h2, h3, hasConnect, hasDisconnect,
                        noBuildSteps, slowStepsOk, isOkE, isConnect,
                        isDisconnect, isBuildStep]
                    · cases h4 : env.chmodKernelOk
                      · simp [extractSlow, attachNBD, hff, hm, hc, hp, hmo,
                          hk, hin, h1, h2, h3, h4, hasConnect, hasDisconnect,
                          noBuildSteps, slowStepsOk, isOkE, isConnect,
                          isDisconnect, isBuildStep]
                      · cases h5 : env.umountOk
                        · simp [extractSlow, attachNBD, hff, hm, hc, hp, hmo,
                            hk, hin, h1, h2, h3, h4, h5, hasConnect,
                            hasDisconnect, noBuildSteps, slowStepsOk, isOkE,
                            isConnect, isDisconnect, isBuildStep]
                        · cases h6 : env.rmdirOk
                          · simp [extractSlow, attachNBD, hff, hm, hc, hp,
                              hmo, hk, hin, h1, h2, h3, h4, h5, h6,
                              hasConnect, hasDisconnect, noBuildSteps,
                              slowStepsOk, isOkE, isConnect, isDisconnect,
                              isBuildStep]
                          · cases h7 : env.detachOk
                            · simp [extractSlow, attachNBD, detachNBD, hff,
                                hm, hc, hp, hmo, hk, hin, h1, h2, h3, h4, h5,
                                h6, h7, hasConnect, hasDisconnect,
                                noBuildSteps, slowStepsOk, isOkE, isConnect,
                                isDisconnect, isBuildStep]
                            · simp [extractSlow, attachNBD, detachNBD, hff,
                                hm, hc, hp, hmo, hk, hin, h1, h2, h3, h4, h5,
                                h6, h7, hasConnect, hasDisconnect,
                                noBuildSteps, slowStepsOk, isOkE, isConnect,
                                isDisconnect, isBuildStep]

theorem extractSlow_fs_irrel (env : ExtractEnv) (fs fsB : FS)
    (image kernel initrd : String) :
    (extractSlow env fs image kernel initrd).res
      = (extractSlow env fsB image kernel initrd).res ∧
    (extractSlow env fs image kernel initrd).trace
      = (extractSlow env fsB image kernel initrd).trace := by
  rcases hff : firstFree env.busy (List.range 63) with _ | i
  · simp [extractSlow, attachNBD, hff]
  · cases hm : env.modprobeOk
    · simp [extractSlow, attachNBD, hff, hm]
    · cases hc : env.connectOk
      · simp [extractSlow, attachNBD, hff, hm, hc]
      · cases hp : env.partxOk
        · simp [extractSlow, attachNBD, hff, hm, hc, hp]
        · cases hmo : env.mountOk
          · simp [extractSlow, attachNBD, hff, hm, hc, hp, hmo]
          · rcases hk : env.kernsrcs.head? with _ | ks
            · simp [extractSlow, attachNBD, hff, hm, hc, hp, hmo, hk]
            · rcases hin : env.initrdsrcs.head? with _ | isrc
              · simp [extractSlow, attachNBD, hff, hm, hc, hp, hmo, hk, hin]
              · cases h1 : env.cpInitrdOk <;> cases h2 : env.chmodInitrdOk <;>
                  cases h3 : env.cpKernelOk <;> cases h4 : env.chmodKernelOk <;>
                  cases h5 : env.umountOk <;> cases h6 : env.rmdirOk <;>
                  cases h7 : env.detachOk <;>
                  simp [extractSlow, attachNBD, detachNBD, hff, hm, hc, hp,
                    hmo, hk, hin, h1, h2, h3, h4, h5, h6, h7]

/-- Counterexample for C5: with the base image not yet cached and a failing
`mount` invocation, `extractKernel` attaches an nbd device, fails, and never
detaches it — the handle is not released on this exit path. -/
theorem extractKernel_detach_leak_cex :
    hasConnect (extractKernel leakEnv emptyFS
      "/home/mn/vm-images/raring32server-base.qcow2" "raring32server"
      "/home/mn/vm-images").trace = true ∧
    (extractKernel leakEnv emptyFS
      "/home/mn/vm-images/raring32server-base.qcow2" "raring32server"
      "/home/mn/vm-images").res = .error .subprocessFailure ∧
    hasDisconnect (extractKernel leakEnv emptyFS
      "/home/mn/vm-images/raring32server-base.qcow2" "raring32server"
      "/home/mn/vm-images").trace = false := by
  exact ⟨rfl, rfl, rfl⟩

/-- Claim C5 (amended): `extractKernel` has no scoped-resource bracket: the
attached device is detached only on the all-successful path.  Precisely, the
trace contains a detach iff it contains an attach and every step between
attach and detach (partx, mount, both globs, both copies, both chmods,
unmount, rmdir) succeeded; on any failing exit path after the attach, the
device is leaked. -/
theorem extractKernel_detach_iff_success (env : ExtractEnv) (fs : FS)
    (image flavor imageDir : String) :
    hasDisconnect (extractKernel env fs image flavor imageDir).trace
      = (hasConnect (extractKernel env fs image flavor imageDir).trace &&
         env.connectOk && slowStepsOk env) := by
  have h := extractSlow_spec env fs image
    (imageDir ++ "/" ++ flavor ++ "-vmlinuz")
    (imageDir ++ "/" ++ flavor ++ "-initrd")
  unfold extractKernel
  by_cases hpk : pathExists fs (imageDir ++ "/" ++ flavor ++ "-vmlinuz") = true
  · rcases hsm : statMode fs image with _ | m
    · simp [hpk, hsm, hasDisconnect, hasConnect]
    · by_cases hm444 : (m == 0o444) = true
      · simp [hpk, hsm, hm444, hasDisconnect, hasConnect]
      · simp only [hpk, hsm, hm444, if_true, if_false, ite_true, ite_false,
          Bool.false_eq_true]
        rw [h.2.1, h.1]
  · simp only [hpk, if_false, ite_false, Bool.false_eq_true]
    rw [h.2.1, h.1]

/-- Claim C10: `extractKernel` takes its cached fast path — returning the
kernel and initrd cache paths without attaching any block device — exactly
when the cached kernel file exists and the base image's permission bits are
0444; and its outcome and command trace depend only on the kernel-path and
image-path filesystem entries (in particular it never checks whether the
cached initrd file itself exists). -/
theorem extractKernel_fast_path_iff (env : ExtractEnv) (fs fsB : FS)
    (image flavor imageDir : String)
    (hk : fs (imageDir ++ "/" ++ flavor ++ "-vmlinuz")
        = fsB (imageDir ++ "/" ++ flavor ++ "-vmlinuz"))
    (hi : fs image = fsB image) :
    (((extractKernel env fs image flavor imageDir).res
        = .ok (imageDir ++ "/" ++ flavor ++ "-vmlinuz",
               imageDir ++ "/" ++ flavor ++ "-initrd") ∧
      hasConnect (extractKernel env fs image flavor imageDir).trace = false) ↔
      (pathExists fs (imageDir ++ "/" ++ flavor ++ "-vmlinuz") = true ∧
       statMode fs image = some 0o444)) ∧
    (extractKernel env fs image flavor imageDir).res
      = (extractKernel env fsB image flavor imageDir).res ∧
    (extractKernel env fs image flavor imageDir).trace
      = (extractKernel env fsB image flavor imageDir).trace := by
  have hslow := extractSlow_spec env fs image
    (imageDir ++ "/" ++ flavor ++ "-vmlinuz")
    (imageDir ++ "/" ++ flavor ++ "-initrd")
  have hirrel := extractSlow_fs_irrel env fs fsB image
    (imageDir ++ "/" ++ flavor ++ "-vmlinuz")
    (imageDir ++ "/" ++ flavor ++ "-initrd")
  have hpkEq : pathExists fs (imageDir ++ "/" ++ flavor ++ "-vmlinuz")
      = pathExists fsB (imageDir ++ "/" ++ flavor ++ "-vmlinuz") := by
    simp [pathExists, hk]
  have hsmEq : statMode fs image = statMode fsB image := by
    simp [statMode, hi]
  have hslowFalse : ∀ v,
      (extractSlow env fs image (imageDir ++ "/" ++ flavor ++ "-vmlinuz")
        (imageDir ++ "/" ++ flavor ++ "-initrd")).res = .ok v →
      hasConnect (extractSlow env fs image
        (imageDir ++ "/" ++ flavor ++ "-vmlinuz")
        (imageDir ++ "/" ++ flavor ++ "-initrd")).trace = false → False := by
    intro v hres hconn
    have h1 : isOkE (extractSlow env fs image
        (imageDir ++ "/" ++ flavor ++ "-vmlinuz")
        (imageDir ++ "/" ++ flavor ++ "-initrd")).res = true := by
      rw [hres]; rfl
    rw [hslow.2.2.2.2] at h1
    rw [hslow.1] at hconn
    rw [hconn] at h1
    simp at h1
  have hind : (extractKernel env fs image flavor imageDir).res
      = (extractKernel env fsB image flavor imageDir).res ∧
      (extractKernel env fs image flavor imageDir).trace
        = (extractKernel env fsB image flavor imageDir).trace := by
    simp only [extractKernel]
    rw [hpkEq, hsmEq]
    by_cases hpk2 : pathExists fsB (imageDir ++ "/" ++ flavor ++ "-vmlinuz") = true
    · rcases hsm2 : statMode fsB image with _ | m
      · simp [hpk2, hsm2]
      · by_cases hm : (m == 0o444) = true
        · simp [hpk2, hsm2, hm]
        · simp only [hpk2, hsm2, hm, if_true, ite_true, ite_false,
            Bool.false_eq_true]
          exact ⟨hirrel.1, hirrel.2⟩
    · simp only [hpk2, ite_false, Bool.false_eq_true]
      exact ⟨hirrel.1, hirrel.2⟩
  refine ⟨⟨?_, ?_⟩, hind.1, hind.2⟩
  · rintro ⟨hres, hconn⟩
    unfold extractKernel at hres hconn
    by_cases hpk : pathExists fs (imageDir ++ "/" ++ flavor ++ "-vmlinuz") = true
    · rcases hsm : statMode fs image with _ | m
      · simp [hpk, hsm] at hres
      · by_cases hm444 : (m == 0o444) = true
        · have hm : m = 0o444 := by simpa using hm444
          exact ⟨hpk, by simp [hsm, hm]⟩
        · simp only [hpk, hsm, hm444, ite_true, ite_false, if_true,
            Bool.false_eq_true] at hres hconn
          exact (hslowFalse _ hres hconn).elim
    · simp only [hpk, ite_false, Bool.false_eq_true] at hres hconn
      exact (hslowFalse _ hres hconn).elim
  · rintro ⟨hpk, hsm⟩
    unfold extractKernel
    simp [hpk, hsm, hasConnect]

/-- Witness for C10: on a filesystem with a read-only base image and cached
kernel but no cached initrd, `extractKernel` takes the fast path. -/
theorem extractKernel_fast_path_iff_witness :
    (pathExists fsComplete
        ("/home/mn/vm-images" ++ "/" ++ "raring32server" ++ "-vmlinuz") = true ∧
      statMode fsComplete "/home/mn/vm-images/raring32server-base.qcow2"
        = some 0o444 ∧
      fsComplete ("/home/mn/vm-images" ++ "/" ++ "raring32server" ++ "-initrd")
        = none) ∧
    ((extractKernel allOkExtract fsComplete
        "/home/mn/vm-images/raring32server-base.qcow2" "raring32server"
        "/home/mn/vm-images").res
      = .ok ("/home/mn/vm-images" ++ "/" ++ "raring32server" ++ "-vmlinuz",
             "/home/mn/vm-images" ++ "/" ++ "raring32server" ++ "-initrd") ∧
      hasConnect (extractKernel allOkExtract fsComplete
        "/home/mn/vm-images/raring32server-base.qcow2" "raring32server"
        "/home/mn/vm-images").trace = false) := by
  refine ⟨⟨by decide, by decide, by decide⟩, ?_⟩
  exact (extractKernel_fast_path_iff allOkExtract fsComplete fsComplete
    "/home/mn/vm-images/raring32server-base.qcow2" "raring32server"
    "/home/mn/vm-images" rfl rfl).1.mpr ⟨by decide, by decide⟩

theorem extractKernel_no_build (env : ExtractEnv) (fs : FS)
    (image flavor imageDir : String) :
    noBuildSteps (extractKernel env fs image flavor imageDir).trace = true := by
  have h := (extractSlow_spec env fs image
    (imageDir ++ "/" ++ flavor ++ "-vmlinuz")
    (imageDir ++ "/" ++ flavor ++ "-initrd")).2.2.1
  simp only [extractKernel]
  by_cases hpk : pathExists fs (imageDir ++ "/" ++ flavor ++ "-vmlinuz") = true
  · rcases hsm : statMode fs image with _ | m
    · simp [hpk, hsm, noBuildSteps]
    · by_cases hm : (m == 0o444) = true
      · simp [hpk, hsm, hm, noBuildSteps]
      · simpa [hpk, hsm, hm] using h
  · simpa [hpk] using h

theorem extractKernel_ok_val (env : ExtractEnv) (fs : FS)
    (image flavor imageDir : String) (v : String × String)
    (hres : (extractKernel env fs image flavor imageDir).res = .ok v) :
    v = (imageDir ++ "/" ++ flavor ++ "-vmlinuz",
         imageDir ++ "/" ++ flavor ++ "-initrd") := by
  have h := (extractSlow_spec env fs image
    (imageDir ++ "/" ++ flavor ++ "-vmlinuz")
    (imageDir ++ "/" ++ flavor ++ "-initrd")).2.2.2.1
  simp only [extractKernel] at hres
  by_cases hpk : pathExists fs (imageDir ++ "/" ++ flavor ++ "-vmlinuz") = true
  · rcases hsm : statMode fs image with _ | m
    · simp [hpk, hsm] at hres
    · by_cases hm : (m == 0o444) = true
      · simp [hpk, hsm, hm] at hres
        exact hres.symm
      · simp only [hpk, hsm, hm, ite_true, ite_false, if_true,
          Bool.false_eq_true] at hres
        exact h v hres
  · simp only [hpk, ite_false, Bool.false_eq_true] at hres
    exact h v hres

theorem extractKernel_fast (env : ExtractEnv) (fs : FS)
    (image flavor imageDir : String)
    (hpk : pathExists fs (imageDir ++ "/" ++ flavor ++ "-vmlinuz") = true)
    (hsm : statMode fs image = some 0o444) :
    extractKernel env fs image flavor imageDir
      = ⟨.ok (imageDir ++ "/" ++ flavor ++ "-vmlinuz",
              imageDir ++ "/" ++ flavor ++ "-initrd"), fs, []⟩ := by
  simp only [extractKernel]
  simp [hpk, hsm]

/-- Claim C1: if the base image file exists but its permission bits are not
0444, `findBaseImage` raises the concurrent-build conflict error, runs no
external command at all, and leaves the filesystem untouched. -/
theorem findBaseImage_writable_conflict (env : BaseEnv) (fs : FS)
    (flavor home : String) (fi : FileInfo)
    (hex : fs (VMImageDir home ++ "/" ++ flavor ++ "-base.qcow2") = some fi)
    (hmode : fi.mode &&& 0o777 ≠ 0o444) :
    (findBaseImage env fs flavor home).res = .error .concurrentBuildConflict ∧
    (findBaseImage env fs flavor home).trace = [] ∧
    (findBaseImage env fs flavor home).fs = fs := by
  simp only [findBaseImage]
  simp [hex, hmode]

/-- Witness for C1: a writable (mode 0644) base image makes the build abort
with the conflict error. -/
theorem findBaseImage_writable_conflict_witness :
    (fsWritableImage
        (VMImageDir "/home/mn" ++ "/" ++ "raring32server" ++ "-base.qcow2")
      = some ⟨0o644, 1024⟩ ∧ ((0o644 : Nat) &&& 0o777) ≠ 0o444) ∧
    (findBaseImage baseEnvOk fsWritableImage "raring32server" "/home/mn").res
      = .error .concurrentBuildConflict := by
  refine ⟨⟨by decide, by decide⟩, ?_⟩
  exact (findBaseImage_writable_conflict baseEnvOk fsWritableImage
    "raring32server" "/home/mn" ⟨0o644, 1024⟩ (by decide) (by decide)).1

/-- Claim C2: if a complete (read-only, mode 0444) base image exists,
`findBaseImage` runs no media fetch, no blank-disk creation and no
unattended install; whenever it returns it returns exactly the image,
kernel and initrd paths; and when the kernel is already cached it returns
them immediately with no external command at all. -/
theorem findBaseImage_complete_reuse (env : BaseEnv) (fs : FS)
    (flavor home : String) (fi : FileInfo)
    (hex : fs (VMImageDir home ++ "/" ++ flavor ++ "-base.qcow2") = some fi)
    (hmode : fi.mode &&& 0o777 = 0o444) :
    noBuildSteps (findBaseImage env fs flavor home).trace = true ∧
    (∀ v, (findBaseImage env fs flavor home).res = .ok v →
      v = (VMImageDir home ++ "/" ++ flavor ++ "-base.qcow2",
           VMImageDir home ++ "/" ++ flavor ++ "-vmlinuz",
           VMImageDir home ++ "/" ++ flavor ++ "-initrd")) ∧
    (pathExists fs (VMImageDir home ++ "/" ++ flavor ++ "-vmlinuz") = true →
      (findBaseImage env fs flavor home).res
        = .ok (VMImageDir home ++ "/" ++ flavor ++ "-base.qcow2",
               VMImageDir home ++ "/" ++ flavor ++ "-vmlinuz",
               VMImageDir home ++ "/" ++ flavor ++ "-initrd") ∧
      (findBaseImage env fs flavor home).trace = []) := by
  have himg : statMode fs (VMImageDir home ++ "/" ++ flavor ++ "-base.qcow2")
      = some 0o444 := by
    simp [statMode, hex, hmode]
  refine ⟨?_, ?_, ?_⟩
  · rcases her : (extractKernel env.extract fs
        (VMImageDir home ++ "/" ++ flavor ++ "-base.qcow2") flavor
        (VMImageDir home)).res with e | kn <;>
      [skip; rcases kn with ⟨k, n⟩] <;>
      simp [findBaseImage, hex, hmode, her] <;>
      exact extractKernel_no_build env.extract fs
        (VMImageDir home ++ "/" ++ flavor ++ "-base.qcow2") flavor
        (VMImageDir home)
  · intro v hv
    rcases her : (extractKernel env.extract fs
        (VMImageDir home ++ "/" ++ flavor ++ "-base.qcow2") flavor
        (VMImageDir home)).res with e | kn
    · simp [findBaseImage, hex, hmode, her] at hv
    · rcases kn with ⟨k, n⟩
      have hkn := extractKernel_ok_val env.extract fs
        (VMImageDir home ++ "/" ++ flavor ++ "-base.qcow2") flavor
        (VMImageDir home) (k, n) her
      rw [Prod.mk.injEq] at hkn
      simp [findBaseImage, hex, hmode, her] at hv
      rw [← hv, hkn.1, hkn.2]
  · intro hpk2
    have hfast := extractKernel_fast env.extract fs
      (VMImageDir home ++ "/" ++ flavor ++ "-base.qcow2") flavor
      (VMImageDir home) hpk2 himg
    simp [findBaseImage, hex, hmode, hfast]

/-- Witness for C2: with a read-only base image and a cached kernel,
`findBaseImage` immediately returns the three cached paths. -/
theorem findBaseImage_complete_reuse_witness :
    (fsComplete
        (VMImageDir "/home/mn" ++ "/" ++ "raring32server" ++ "-base.qcow2")
      = some ⟨0o444, 8589934592⟩ ∧ ((0o444 : Nat) &&& 0o777) = 0o444 ∧
      pathExists fsComplete
        (VMImageDir "/home/mn" ++ "/" ++ "raring32server" ++ "-vmlinuz") = true) ∧
    (findBaseImage baseEnvOk fsComplete "raring32server" "/home/mn").res
      = .ok (VMImageDir "/home/mn" ++ "/" ++ "raring32server" ++ "-base.qcow2",
             VMImageDir "/home/mn" ++ "/" ++ "raring32server" ++ "-vmlinuz",
             VMImageDir "/home/mn" ++ "/" ++ "raring32server" ++ "-initrd") := by
  refine ⟨⟨by decide, by decide, by decide⟩, ?_⟩
  exact ((findBaseImage_complete_reuse baseEnvOk fsComplete "raring32server"
    "/home/mn" ⟨0o444, 8589934592⟩ (by decide) (by decide)).2.2 (by decide)).1

theorem expectStep_single (env : Nat → Nat) (j : Nat) (s : String) :
    expectStep env j [Pat.text s] = (some 0, .waitMatched [Pat.text s] 0) ∨
    expectStep env j [Pat.text s] = (none, .waitTimedOut [Pat.text s]) := by
  unfold expectStep
  by_cases h : env j < ([Pat.text s] : List Pat).length
  · left
    have h0 : env j = 0 := Nat.lt_one_iff.mp (by simpa using h)
    simp [h0]
  · right
    rw [if_neg h]
    rfl

/-- Claim C6: in every run of the login step, the username is sent only
after the login prompt was matched, the password only after the password
prompt was matched, and the login prompt is matched before the password
prompt; credentials are never sent out of that order. -/
theorem login_credential_order (env : Nat → Nat) (k : Nat) :
    credOrder (login env k).trace false false 0 = true := by
  simp only [login, loginPats, passwordPats]
  rcases expectStep_single env k "login: " with h1 | h1 <;> rw [h1]
  · rcases expectStep_single env (k + 1) "Password: " with h2 | h2 <;> rw [h2]
    · rfl
    · rfl
  · rfl

theorem expectStep_core (env : Nat → Nat) (j : Nat) :
    expectStep env j corePats
      = (some (coreIdx (env j)), .waitMatched corePats (coreIdx (env j))) := by
  by_cases h : env j < 3
  · have hl : env j < corePats.length := by simpa [corePats] using h
    unfold expectStep
    rw [if_pos hl]
    simp [coreIdx, h]
  · have hl : ¬ env j < corePats.length := by simpa [corePats] using h
    unfold expectStep
    rw [if_neg hl]
    rw [show corePats.findIdx? (fun p => p == Pat.timeout) = some 2 from rfl]
    simp [coreIdx, h]

theorem expectStep_prompt_hit (env : Nat → Nat) (j : Nat) (h : env j = 0) :
    expectStep env j promptPats = (some 0, .waitMatched promptPats 0) := by
  unfold expectStep
  rw [if_pos (by simp [h, promptPats])]
  simp [h]

/-- Claim C7: whenever the two cgroup-setup prompt waits match, `coreTest`
performs exactly two ordered result-token waits and logs exactly two
outcomes, one right after each wait (a timeout is logged as a failure);
no result outcome raises or skips the second wait, and the step returns
normally. -/
theorem coreTest_two_outcomes (env : Nat → Nat) (k : Nat)
    (h1 : env k = 0) (h2 : env (k + 1) = 0) :
    (coreTest env k).res = .ok () ∧
    (coreTest env k).trace
      = [.sent "sudo service cgroup-lite restart", .waitMatched promptPats 0,
         .sent "sudo cgroups-mount", .waitMatched promptPats 0,
         .sent "cd ~/mininet; sudo make test",
         .waitMatched corePats (coreIdx (env (k + 2))),
         .outcome 0 (coreIdx (env (k + 2)) == 0),
         .waitMatched corePats (coreIdx (env (k + 3))),
         .outcome 1 (coreIdx (env (k + 3)) == 0)] := by
  unfold coreTest
  rw [expectStep_prompt_hit env k h1, expectStep_prompt_hit env (k + 1) h2]
  simp [coreLoop, expectStep_core]

/-- Witness for C7: with a console that always matches, `coreTest` returns
normally. -/
theorem coreTest_two_outcomes_witness :
    (envZero 0 = 0 ∧ envZero 1 = 0) ∧ (coreTest envZero 0).res = .ok () :=
  ⟨⟨rfl, rfl⟩, (coreTest_two_outcomes envZero 0 rfl rfl).1⟩

/-- Counterexample for C8: `sanityTest` performs no shell-prompt wait at
all — it returns right after its result-token wait, leaving its trailing
prompt on the console — and `runTests` then performs the prompt wait on the
test's behalf. -/
theorem runTests_prompt_cex :
    (sanityTest envZero 0).trace.all (fun e => !isPromptWait e) = true ∧
    (runTests envZero 0 ["sanity"]).trace
      = (sanityTest envZero 0).trace ++ [.waitMatched promptPats 0] := by
  exact ⟨rfl, rfl⟩

theorem expectStep_prompt_wait (env : Nat → Nat) (j : Nat) :
    isPromptWait (expectStep env j promptPats).2 = true := by
  unfold expectStep
  by_cases h : env j < promptPats.length
  · rw [if_pos h]
    rfl
  · rw [if_neg h]
    rfl

/-- Claim C8 (amended): named test sub-protocols do not consume the
trailing shell prompt they leave on the console; instead, after each
sub-protocol returns successfully, the test runner itself performs exactly
one shell-prompt wait on the test's behalf. -/
theorem runTests_consumes_prompt (env : Nat → Nat) (k : Nat)
    (name : String) (fn : (Nat → Nat) → Nat → CRes Unit)
    (hfn : lookupStr name testfns = some fn)
    (hok : (fn env k).res = .ok ()) :
    ∃ e, isPromptWait e = true ∧
      (runTests env k [name]).trace = (fn env k).trace ++ [e] := by
  unfold runTests runTestsGo
  simp only [List.isEmpty_cons, Bool.false_eq_true, if_false, ite_false,
    hfn, hok]
  rcases hstep : expectStep env (fn env k).k promptPats with ⟨o, e⟩
  have hpw : isPromptWait e = true := by
    have he : e = (expectStep env (fn env k).k promptPats).2 := by rw [hstep]
    rw [he]
    exact expectStep_prompt_wait env (fn env k).k
  refine ⟨e, hpw, ?_⟩
  cases o
  · simp
  · simp [runTestsGo]

/-- Witness for C8's amended claim: after a successful sanity test,
`runTests` performs the trailing prompt wait itself. -/
theorem runTests_consumes_prompt_witness :
    (lookupStr "sanity" testfns = some sanityTest ∧
      (sanityTest envZero 0).res = .ok ()) ∧
    ∃ e, isPromptWait e = true ∧
      (runTests envZero 0 ["sanity"]).trace
        = (sanityTest envZero 0).trace ++ [e] :=
  ⟨⟨rfl, rfl⟩, runTests_consumes_prompt envZero 0 "sanity" sanityTest rfl rfl⟩

/-- Claim C3: when the fetch path is taken and the downloaded file fails
the `ISO` type check, `findiso` removes the download before raising the
media-fetch error: afterwards no file remains at the media path, and the
trace shows the removal happening right after the fetch (before control
returns). -/
theorem findiso_badmedia_cleanup (env : FetchEnv) (fs : FS)
    (flavor home url : String)
    (hurl : lookupStr flavor isoURLs = some url)
    (hstale : isoStale fs (VMImageDir home ++ "/" ++ basename url) = true)
    (hcurl : env.curlOk = true) (hfile : env.fileCmdOk = true)
    (htype : env.isoTypeOk = false) :
    (findiso env fs flavor home).res = .error .mediaFetchError ∧
    (findiso env fs flavor home).fs (VMImageDir home ++ "/" ++ basename url)
      = none ∧
    (findiso env fs flavor home).trace
      = [.fetch url, .removeEv (VMImageDir home ++ "/" ++ basename url)] := by
  simp only [findiso, hurl]
  simp [hstale, hcurl, hfile, htype, removeFile]

/-- Witness for C3: fetching the raring32server iso into an empty cache
with a failing type check leaves no file at the media path. -/
theorem findiso_badmedia_cleanup_witness :
    (lookupStr "raring32server" isoURLs
      = some "http://mirrors.kernel.org/ubuntu-releases/13.04/ubuntu-13.04-server-i386.iso" ∧
     isoStale emptyFS (VMImageDir "/home/mn" ++ "/"
        ++ basename "http://mirrors.kernel.org/ubuntu-releases/13.04/ubuntu-13.04-server-i386.iso")
      = true ∧
     fetchBadEnv.curlOk = true ∧ fetchBadEnv.fileCmdOk = true ∧
     fetchBadEnv.isoTypeOk = false) ∧
    ((findiso fetchBadEnv emptyFS "raring32server" "/home/mn").res
      = .error .mediaFetchError ∧
     (findiso fetchBadEnv emptyFS "raring32server" "/home/mn").fs
        (VMImageDir "/home/mn" ++ "/"
          ++ basename "http://mirrors.kernel.org/ubuntu-releases/13.04/ubuntu-13.04-server-i386.iso")
      = none) := by
  refine ⟨⟨by decide, by decide, rfl, rfl, rfl⟩, ?_⟩
  have h := findiso_badmedia_cleanup fetchBadEnv emptyFS "raring32server"
    "/home/mn"
    "http://mirrors.kernel.org/ubuntu-releases/13.04/ubuntu-13.04-server-i386.iso"
    (by decide) (by decide) rfl rfl rfl
  exact ⟨h.1, h.2.1⟩

theorem isoURLs_flavors (flavor url : String)
    (h : lookupStr flavor isoURLs = some url) :
    flavor = "precise32server" ∨ flavor = "precise64server" ∨
    flavor = "quantal32server" ∨ flavor = "quantal64server" ∨
    flavor = "raring32server" ∨ flavor = "raring64server" ∨
    flavor = "saucy32server" ∨ flavor = "saucy64server" := by
  simp only [isoURLs, lookupStr] at h
  repeat' split at h
  all_goals simp_all

/-- Claim C9: for a conversion whose working-disk virtual capacity was
queried before conversion, the generated descriptor's declared capacity
field equals that queried virtual capacity exactly, while its file-size
field equals the converted artifact's actual on-disk byte size
(`env.vmdkSize`, arbitrary and independent of the capacity). -/
theorem buildPackage_descriptor_sizes (env : PackEnv) (fs : FS)
    (flavor version url : String) (saveQCOW2 : Bool) (cap : Nat)
    (fiV : FileInfo)
    (hfl : lookupStr flavor isoURLs = some url)
    (hq1 : env.fileQcowOk = true) (hq2 : env.isQcow = true)
    (hq3 : env.virtSizeOut = some cap) (hc : env.convertOk = true)
    (hv : fs ("mininet-" ++ flavor ++ ".qcow2") = some fiV) :
    (buildPackage env fs flavor version saveQCOW2).res
      = .ok ("mininet-" ++ version ++ "-" ++ OSVersion flavor ++ ".ovf",
             ⟨"mininet-vm.vmdk", env.vmdkSize, cap,
              "mininet-" ++ version ++ "-" ++ OSVersion flavor, 1024⟩) := by
  have hne : (("mininet-" ++ flavor ++ ".qcow2") == "mininet-vm.vmdk") = false := by
    rcases isoURLs_flavors flavor url hfl with h | h | h | h | h | h | h | h <;>
      subst h <;> rfl
  have hne2 : (("mininet-vm.vmdk" : String) == "mininet-" ++ flavor ++ ".qcow2") = false := by
    rcases isoURLs_flavors flavor url hfl with h | h | h | h | h | h | h | h <;>
      subst h <;> rfl
  cases saveQCOW2 <;>
    simp [buildPackage, qcow2size, convert, generateOVF, statSize, setFile,
      removeFile, hq1, hq2, hq3, hc, hv, hne, hne2]

/-- Witness for C9: a 2 GiB on-disk working disk reporting an 8 GiB virtual
capacity yields a descriptor declaring exactly 8 GiB capacity while its
file reference records the 1 GiB converted artifact size. -/
theorem buildPackage_descriptor_sizes_witness :
    (lookupStr "raring32server" isoURLs
      = some "http://mirrors.kernel.org/ubuntu-releases/13.04/ubuntu-13.04-server-i386.iso" ∧
     packEnvOk.fileQcowOk = true ∧ packEnvOk.isQcow = true ∧
     packEnvOk.virtSizeOut = some 8589934592 ∧ packEnvOk.convertOk = true ∧
     fsVolume ("mininet-" ++ "raring32server" ++ ".qcow2")
      = some ⟨0o644, 2147483648⟩) ∧
    (buildPackage packEnvOk fsVolume "raring32server" "2.1.0" false).res
      = .ok ("mininet-" ++ "2.1.0" ++ "-" ++ OSVersion "raring32server" ++ ".ovf",
             ⟨"mininet-vm.vmdk", packEnvOk.vmdkSize, 8589934592,
              "mininet-" ++ "2.1.0" ++ "-" ++ OSVersion "raring32server", 1024⟩) := by
  refine ⟨⟨by decide, rfl, rfl, rfl, rfl, by decide⟩, ?_⟩
  exact buildPackage_descriptor_sizes packEnvOk fsVolume "raring32server"
    "2.1.0"
    "http://mirrors.kernel.org/ubuntu-releases/13.04/ubuntu-13.04-server-i386.iso"
    false 8589934592 ⟨0o644, 2147483648⟩ (by decide) rfl rfl rfl rfl (by decide)

end MininetBuild
